import Mathlib

/-!
Verification of the offline-first synchronization core of the parking
record keeper, against its specification.

Source of the embedding:
* `models/entry.py` (ParkingEntry: construction defaults, vehicle-number
  normalisation, fee calculation) and the replica of the fee algorithm in
  `migration/data_migration_plan.py` (`_calculate_fee_for_validation`,
  including the rates table with fallback 100).
* `migration/data_migration_plan.py` (JsonDataValidator content checks,
  DataTransformer.transform_entry, the SQLite schema with its
  `UNIQUE (vehicle_number, entry_time)` constraint).
* The Record Store, Operation Queue, Conflict Resolver and Sync
  Orchestrator live in `src/desktop/services/*`, which is not part of the
  sources available here (only their tests are); those components are
  modelled from the spec, and each such definition carries a doc comment
  starting with `Modelled from the spec:`.

Timestamps are modelled as integers (microseconds for durations fed to the
fee algorithm, abstract integral clock readings elsewhere); monetary fees
are integers in whole currency units, matching the whole-unit rates
(225/150/100/50) used throughout the tests.
-/

namespace ParkingSync

/-! ## Shared data model -/

/-- Entity status, `status ∈ {Parked, Exited}`. -/
inductive EntryStatus
  | Parked
  | Exited
deriving DecidableEq, Repr

/-- Payment status, `payment_status ∈ {Unpaid, Paid, Pending, Refunded}`. -/
inductive PaymentStatus
  | Unpaid
  | Paid
  | Pending
  | Refunded
deriving DecidableEq, Repr

/-- A snapshot of an entity as seen by the Conflict Resolver: the business
fields compared by conflict detection (status, payment status, fee) plus
the natural-key vehicle number and the last-modified timestamp. -/
structure Snapshot where
  vehicleNumber : String
  status : EntryStatus
  paymentStatus : PaymentStatus
  fee : Int
  lastModified : Int
deriving DecidableEq, Repr

/-! ## Conflict Resolver (modelled from the spec) -/

/-- Conflict classification. -/
inductive ConflictType
  | UpdateUpdate
  | DeleteUpdate
  | UpdateDelete
  | CreateCreate
deriving DecidableEq, Repr

/-- A detected conflict: classification, the two divergent snapshots, and
the optional auto-merged result. -/
structure ConflictRecord where
  conflictType : ConflictType
  localEntry : Snapshot
  remoteEntry : Snapshot
  resolvedData : Option Snapshot
deriving DecidableEq, Repr

/-- Modelled from the spec: two snapshots are field-equal when all the
business fields compared by detection (vehicle number, status, payment
status, fee) agree. -/
def fieldEqual (l r : Snapshot) : Bool :=
  decide (l.vehicleNumber = r.vehicleNumber) &&
  decide (l.status = r.status) &&
  decide (l.paymentStatus = r.paymentStatus) &&
  decide (l.fee = r.fee)

/-- Terminality rank of a status: Exited outranks Parked. -/
def statusRank : EntryStatus → Nat
  | .Parked => 0
  | .Exited => 1

/-- Modelled from the spec: status resolves to whichever side reports the
more terminal state. -/
def mergeStatus (l r : EntryStatus) : EntryStatus :=
  if statusRank r ≤ statusRank l then l else r

/-- Modelled from the spec: payment status resolves toward Paid over
Unpaid/Pending when both are present; otherwise the local value is kept. -/
def mergePayment (l r : PaymentStatus) : PaymentStatus :=
  if l = .Paid ∨ r = .Paid then .Paid else l

/-- Modelled from the spec: the automatic merge of an UpdateUpdate
conflict. Status takes the more terminal side, the fee resolves to the
larger of the two values, payment resolves toward Paid. -/
def autoResolve (l r : Snapshot) : Snapshot :=
  { vehicleNumber := l.vehicleNumber
    status := mergeStatus l.status r.status
    paymentStatus := mergePayment l.paymentStatus r.paymentStatus
    fee := max l.fee r.fee
    lastModified := max l.lastModified r.lastModified }

/-- Modelled from the spec: `detect(local, remote)` returns no conflict
when the two snapshots are field-equal; otherwise it classifies an
UpdateUpdate conflict and attaches the automatic merge result exactly when
the two last-modified timestamps are within the configured merge window
(`window`, in the same clock units as `lastModified`). -/
def detectConflict (window : Nat) (l r : Snapshot) : Option ConflictRecord :=
  if fieldEqual l r then none
  else
    some { conflictType := .UpdateUpdate
           localEntry := l
           remoteEntry := r
           resolvedData :=
             if (l.lastModified - r.lastModified).natAbs ≤ window then
               some (autoResolve l r)
             else none }

/-! ## Theorems: conflict resolution (C1, C5) -/

/-- C1: for every pair of snapshots of the same entity where the local
snapshot has status Exited and fee 225 and the remote snapshot has status
Parked and fee 200, with the two last-modified timestamps within the
configured merge window, conflict detection classifies an UpdateUpdate
conflict and automatic resolution produces a merged result with status
Exited and fee 225. -/
theorem conflict_auto_resolution (window : Nat) (l r : Snapshot)
    (hls : l.status = .Exited) (hlf : l.fee = 225)
    (hrs : r.status = .Parked) (hrf : r.fee = 200)
    (hw : (l.lastModified - r.lastModified).natAbs ≤ window) :
    ∃ c : ConflictRecord,
      detectConflict window l r = some c ∧
      c.conflictType = .UpdateUpdate ∧
      ∃ m : Snapshot, c.resolvedData = some m ∧
        m.status = .Exited ∧ m.fee = 225 := by
  have hne : fieldEqual l r = false := by
    simp [fieldEqual, hls, hrs]
  refine ⟨{ conflictType := .UpdateUpdate, localEntry := l, remoteEntry := r,
            resolvedData := some (autoResolve l r) }, ?_, rfl, autoResolve l r, rfl, ?_, ?_⟩
  · simp [detectConflict, hne, hw]
  · simp [autoResolve, mergeStatus, hls, hrs, statusRank]
  · simp [autoResolve, hlf, hrf]

/-- Witness for C1: the scenario of the spec, local
{TEST123, Exited, Paid, fee 225, modified t = 1000} versus remote
{TEST123, Parked, Unpaid, fee 200, modified t - 5 minutes = 700} with a
one-hour (3600 second) merge window. -/
theorem conflict_auto_resolution_witness :
    ∃ c : ConflictRecord,
      detectConflict 3600
        { vehicleNumber := "TEST123", status := .Exited,
          paymentStatus := .Paid, fee := 225, lastModified := 1000 }
        { vehicleNumber := "TEST123", status := .Parked,
          paymentStatus := .Unpaid, fee := 200, lastModified := 700 } = some c ∧
      c.conflictType = .UpdateUpdate ∧
      ∃ m : Snapshot, c.resolvedData = some m ∧
        m.status = .Exited ∧ m.fee = 225 :=
  conflict_auto_resolution 3600
    { vehicleNumber := "TEST123", status := .Exited,
      paymentStatus := .Paid, fee := 225, lastModified := 1000 }
    { vehicleNumber := "TEST123", status := .Parked,
      paymentStatus := .Unpaid, fee := 200, lastModified := 700 }
    rfl rfl rfl rfl (by decide)

/-- C5: conflict detection is symmetric-safe, `detect(x, x)` is always
`None`; field-equal snapshots report no conflict. -/
theorem detect_self_no_conflict (window : Nat) (x : Snapshot) :
    detectConflict window x x = none := by
  simp [detectConflict, fieldEqual]

/-! ## Operation Queue (modelled from the spec) -/

/-- Queue operation status,
`status ∈ {pending, processing, completed, failed}`. -/
inductive OperationStatus
  | pending
  | processing
  | completed
  | failed
deriving DecidableEq, Repr

/-- A queued mutation: identifier, priority (lower value = served first),
enqueue time, status, and the next-eligible-retry timestamp. -/
structure QueueOperation where
  opId : Nat
  priority : Nat
  createdAt : Nat
  status : OperationStatus
  scheduledAt : Nat
deriving DecidableEq, Repr

/-- Modelled from the spec: an operation is eligible now when its status
is pending and its next-eligible-retry timestamp is at or before now. -/
def opEligible (now : Nat) (op : QueueOperation) : Bool :=
  decide (op.status = .pending) && decide (op.scheduledAt ≤ now)

/-- The dequeue order: priority ascending, then enqueue time ascending. -/
def opOrder (a b : QueueOperation) : Prop :=
  a.priority < b.priority ∨ (a.priority = b.priority ∧ a.createdAt ≤ b.createdAt)

instance : DecidableRel opOrder := fun a b => by
  unfold opOrder; infer_instance

instance : IsTotal QueueOperation opOrder := by
  constructor; intro a b; unfold opOrder; omega

instance : IsTrans QueueOperation opOrder := by
  constructor; intro a b c; unfold opOrder; omega

/-- Modelled from the spec: `dequeue_ready(limit)` returns the operations
eligible now (status pending and next-eligible-retry at or before now),
ordered by priority ascending then enqueue time ascending, truncated to
`limit`. -/
def dequeueReady (now limit : Nat) (queue : List QueueOperation) : List QueueOperation :=
  (List.insertionSort opOrder (queue.filter (opEligible now))).take limit

/-- The three-operation scenario of the spec: operations enqueued in order
with priorities [2, 1, 1]. -/
def exampleQueue : List QueueOperation :=
  [ { opId := 10, priority := 2, createdAt := 0, status := .pending, scheduledAt := 0 },
    { opId := 11, priority := 1, createdAt := 1, status := .pending, scheduledAt := 0 },
    { opId := 12, priority := 1, createdAt := 2, status := .pending, scheduledAt := 0 } ]

/-! ## Theorems: queue draining (C2) -/

/-- C2: dequeue_ready returns only operations that are pending and whose
next-eligible-retry timestamp is at or before now, ordered by priority
ascending and then enqueue time ascending; for three enqueued operations
with priorities [2, 1, 1], the dequeue order is the two priority-1
operations in their enqueue order followed by the priority-2 operation. -/
theorem dequeue_ready_spec :
    (∀ now limit queue op, op ∈ dequeueReady now limit queue →
       op.status = .pending ∧ op.scheduledAt ≤ now) ∧
    (∀ now limit queue, (dequeueReady now limit queue).Pairwise opOrder) ∧
    dequeueReady 0 10 exampleQueue =
      [ { opId := 11, priority := 1, createdAt := 1, status := .pending, scheduledAt := 0 },
        { opId := 12, priority := 1, createdAt := 2, status := .pending, scheduledAt := 0 },
        { opId := 10, priority := 2, createdAt := 0, status := .pending, scheduledAt := 0 } ] := by
  refine ⟨?_, ?_, by decide⟩
  · intro now limit queue op hmem
    have h1 : op ∈ List.insertionSort opOrder (queue.filter (opEligible now)) :=
      List.mem_of_mem_take hmem
    have h2 : op ∈ queue.filter (opEligible now) :=
      (List.perm_insertionSort opOrder _).mem_iff.mp h1
    have h3 : opEligible now op = true := (List.mem_filter.mp h2).2
    unfold opEligible at h3
    simp only [Bool.and_eq_true, decide_eq_true_eq] at h3
    exact h3
  · intro now limit queue
    exact (List.sorted_insertionSort opOrder _).sublist
      (List.take_sublist limit _)

/-- Witness for C2: the first conjunct applied to a concrete queue and a
concrete member of its dequeue result. -/
theorem dequeue_ready_spec_witness :
    QueueOperation.status
      { opId := 11, priority := 1, createdAt := 1,
        status := .pending, scheduledAt := 0 } = .pending ∧
    QueueOperation.scheduledAt
      { opId := 11, priority := 1, createdAt := 1,
        status := .pending, scheduledAt := 0 } ≤ 0 :=
  dequeue_ready_spec.1 0 10 exampleQueue
    { opId := 11, priority := 1, createdAt := 1, status := .pending, scheduledAt := 0 }
    (by decide)

/-! ## Sync metadata and the Sync Orchestrator push phase
(modelled from the spec) -/

/-- Per-entity sync status, `sync status ∈ {pending, syncing, synced,
conflict}`. -/
inductive SyncStatus
  | pending
  | syncing
  | synced
  | conflict
deriving DecidableEq, Repr

/-- One sync-metadata row: sync status and the dirty flag. -/
structure SyncMeta where
  syncStatus : SyncStatus
  isDirty : Bool
deriving DecidableEq, Repr

/-- The per-phase cycle result counts. -/
structure PushResult where
  synced : Nat
  failed : Nat
deriving DecidableEq, Repr

/-- Modelled from the spec: one item of the push phase. `remote` is the
Remote Client call for the entity and reports success or transient
failure. On success the entity sync metadata becomes synced and not
dirty; on failure the metadata is left as it was (the entity stays dirty)
and only the failure count advances — the batch is not aborted. -/
def pushStep (remote : Nat → Bool) (acc : PushResult × (Nat → SyncMeta))
    (id : Nat) : PushResult × (Nat → SyncMeta) :=
  if remote id then
    ({ acc.1 with synced := acc.1.synced + 1 },
     fun j => if j = id then { syncStatus := .synced, isDirty := false } else acc.2 j)
  else
    ({ acc.1 with failed := acc.1.failed + 1 }, acc.2)

/-- Modelled from the spec: the push phase walks every dirty entity and
applies `pushStep`, isolating each item failure. -/
def pushLocalChanges (remote : Nat → Bool) (dirtyIds : List Nat)
    (meta : Nat → SyncMeta) : PushResult × (Nat → SyncMeta) :=
  dirtyIds.foldl (pushStep remote) ({ synced := 0, failed := 0 }, meta)

/-- Helper: the success count of a push fold adds the number of
successful ids to the starting count. -/
theorem pushFold_synced (remote : Nat → Bool) (ids : List Nat)
    (acc : PushResult × (Nat → SyncMeta)) :
    (ids.foldl (pushStep remote) acc).1.synced =
      acc.1.synced + (ids.filter remote).length := by
  induction ids generalizing acc with
  | nil => simp
  | cons hd tl ih =>
    by_cases h : remote hd
    · simp [List.foldl_cons, pushStep, h, ih]
      omega
    · simp [List.foldl_cons, pushStep, h, ih]

/-- Helper: the failure count of a push fold adds the number of failing
ids to the starting count. -/
theorem pushFold_failed (remote : Nat → Bool) (ids : List Nat)
    (acc : PushResult × (Nat → SyncMeta)) :
    (ids.foldl (pushStep remote) acc).1.failed =
      acc.1.failed + (ids.filter (fun i => !(remote i))).length := by
  induction ids generalizing acc with
  | nil => simp
  | cons hd tl ih =>
    by_cases h : remote hd
    · simp [List.foldl_cons, pushStep, h, ih]
    · simp [List.foldl_cons, pushStep, h, ih]
      omega

/-- Helper: a push fold never touches the metadata of an entity whose
remote call fails. -/
theorem pushFold_meta_failed (remote : Nat → Bool) (ids : List Nat)
    (acc : PushResult × (Nat → SyncMeta)) (id : Nat) (h : remote id = false) :
    (ids.foldl (pushStep remote) acc).2 id = acc.2 id := by
  induction ids generalizing acc with
  | nil => rfl
  | cons hd tl ih =>
    rw [List.foldl_cons, ih]
    unfold pushStep
    by_cases hh : remote hd
    · simp only [hh, if_true]
      have : ¬ id = hd := by
        intro he; rw [he] at h; rw [h] at hh; exact Bool.noConfusion hh
      simp [this]
    · simp [hh]

/-- Helper: a push fold never touches the metadata of an entity outside
the batch. -/
theorem pushFold_meta_not_mem (remote : Nat → Bool) (ids : List Nat)
    (acc : PushResult × (Nat → SyncMeta)) (id : Nat) (hmem : id ∉ ids) :
    (ids.foldl (pushStep remote) acc).2 id = acc.2 id := by
  induction ids generalizing acc with
  | nil => rfl
  | cons hd tl ih =>
    have hne : id ≠ hd := fun he => hmem (he ▸ List.mem_cons_self hd tl)
    have htl : id ∉ tl := fun hx => hmem (List.mem_cons_of_mem hd hx)
    rw [List.foldl_cons, ih _ htl]
    unfold pushStep
    by_cases hh : remote hd
    · simp [hh, hne]
    · simp [hh]

/-- Helper: after a push fold, an entity that appears in the batch and
whose remote call succeeds carries synced, non-dirty metadata. -/
theorem pushFold_meta_success (remote : Nat → Bool) (ids : List Nat)
    (acc : PushResult × (Nat → SyncMeta)) (id : Nat)
    (hmem : id ∈ ids) (h : remote id = true) :
    (ids.foldl (pushStep remote) acc).2 id =
      { syncStatus := .synced, isDirty := false } := by
  induction ids generalizing acc with
  | nil => exact absurd hmem (List.not_mem_nil id)
  | cons hd tl ih =>
    rw [List.foldl_cons]
    by_cases htl : id ∈ tl
    · exact ih _ htl
    · rcases List.mem_cons.mp hmem with he | hx
      · rw [pushFold_meta_not_mem remote tl _ id htl]
        unfold pushStep
        rw [he] at h ⊢
        simp [h]
      · exact absurd hx htl

/-- The push scenario of the spec: three dirty entities, the remote call
for the 2nd fails with a transient error, the others succeed. -/
def exampleRemote : Nat → Bool := fun i => decide (i ≠ 2)

/-- All entities start with pending, dirty sync metadata (the state of a
dirty entity before the push phase picks it up). -/
def allDirtyMeta : Nat → SyncMeta := fun _ => { syncStatus := .pending, isDirty := true }

/-! ## Theorems: push-phase partial-failure isolation (C3) -/

/-- C3: in a push over a batch of dirty entities where some remote calls
fail and others succeed, one item failure does not abort the batch: the
cycle result counts exactly the successes as synced and the failures as
failed, each failed entity keeps pending, dirty metadata, each succeeded
entity gets synced, non-dirty metadata; in particular a push of the batch
[1, 2, 3] whose 2nd item fails yields {synced := 2, failed := 1} with
entity 2 still pending and dirty and entities 1 and 3 synced. -/
theorem push_partial_failure_isolation :
    (∀ (remote : Nat → Bool) (ids : List Nat) (meta : Nat → SyncMeta),
       (pushLocalChanges remote ids meta).1 =
         { synced := (ids.filter remote).length,
           failed := (ids.filter (fun i => !(remote i))).length }) ∧
    (∀ (remote : Nat → Bool) (ids : List Nat) (meta : Nat → SyncMeta) (id : Nat),
       id ∈ ids → remote id = true →
       (pushLocalChanges remote ids meta).2 id =
         { syncStatus := .synced, isDirty := false }) ∧
    (∀ (remote : Nat → Bool) (ids : List Nat) (meta : Nat → SyncMeta) (id : Nat),
       remote id = false → meta id = { syncStatus := .pending, isDirty := true } →
       (pushLocalChanges remote ids meta).2 id =
         { syncStatus := .pending, isDirty := true }) ∧
    ((pushLocalChanges exampleRemote [1, 2, 3] allDirtyMeta).1 =
       { synced := 2, failed := 1 } ∧
     (pushLocalChanges exampleRemote [1, 2, 3] allDirtyMeta).2 1 =
       { syncStatus := .synced, isDirty := false } ∧
     (pushLocalChanges exampleRemote [1, 2, 3] allDirtyMeta).2 2 =
       { syncStatus := .pending, isDirty := true } ∧
     (pushLocalChanges exampleRemote [1, 2, 3] allDirtyMeta).2 3 =
       { syncStatus := .synced, isDirty := false }) := by
  refine ⟨?_, ?_, ?_, by decide⟩
  · intro remote ids meta
    have hs := pushFold_synced remote ids ({ synced := 0, failed := 0 }, meta)
    have hf := pushFold_failed remote ids ({ synced := 0, failed := 0 }, meta)
    unfold pushLocalChanges
    cases hres : (ids.foldl (pushStep remote) ({ synced := 0, failed := 0 }, meta)).1
    rw [hres] at hs hf
    simp at hs hf
    simp [hs, hf]
  · intro remote ids meta id hmem h
    exact pushFold_meta_success remote ids _ id hmem h
  · intro remote ids meta id h hm
    unfold pushLocalChanges
    rw [pushFold_meta_failed remote ids _ id h]
    exact hm

/-- Witness for C3: the success-metadata conjunct applied to the concrete
batch [1, 2, 3] with the 2nd remote call failing. -/
theorem push_partial_failure_isolation_witness :
    (pushLocalChanges exampleRemote [1, 2, 3] allDirtyMeta).2 1 =
      { syncStatus := .synced, isDirty := false } :=
  push_partial_failure_isolation.2.1 exampleRemote [1, 2, 3] allDirtyMeta 1
    (by decide) (by decide)

/-! ## Record Store (modelled from the spec; the natural-key uniqueness
rule is the `UNIQUE (vehicle_number, entry_time)` constraint of the
schema in `migration/data_migration_plan.py`) -/

/-- A stored parking record, with the fields the claims are about.
`exitTime = none` is the null / N-A sentinel. -/
structure StoredEntity where
  vehicleNumber : String
  entryTime : Int
  exitTime : Option Int
  status : String
  fee : Int
  paymentStatus : String
deriving DecidableEq, Repr

/-- The natural key used to match a locally created record with its
remote counterpart: the (vehicle number, entry time) pair. -/
def naturalKey (e : StoredEntity) : String × Int :=
  (e.vehicleNumber, e.entryTime)

/-- Store-level errors. -/
inductive StoreError
  | DuplicateKey
  | NotFound
deriving DecidableEq, Repr

/-- The Record Store: the entity table plus one sync-metadata row per
entity, keyed by the natural key. -/
structure RecordStore where
  entries : List StoredEntity
  meta : List ((String × Int) × SyncMeta)
deriving DecidableEq, Repr

/-- A fresh, empty store. -/
def emptyStore : RecordStore := { entries := [], meta := [] }

/-- Does the store already hold an entity with this natural key? -/
def hasKey (s : RecordStore) (k : String × Int) : Bool :=
  s.entries.any (fun e => decide (naturalKey e = k))

/-- Modelled from the spec: `create(entity)` fails with DuplicateKey when
the (vehicle number, entry time) pair already exists — mirroring the
schema constraint `UNIQUE (vehicle_number, entry_time)` — and leaves the
store untouched; otherwise it inserts the entity row together with its
pending, dirty sync-metadata row. -/
def createEntity (s : RecordStore) (e : StoredEntity) :
    RecordStore × Option StoreError :=
  if hasKey s (naturalKey e) then (s, some .DuplicateKey)
  else
    ({ entries := s.entries ++ [e],
       meta := s.meta ++ [(naturalKey e, { syncStatus := .pending, isDirty := true })] },
     none)

/-- Modelled from the spec: `export_snapshot()` returns the entity set of
the store. -/
def exportSnapshot (s : RecordStore) : List StoredEntity := s.entries

/-- Modelled from the spec: `import_snapshot(records)` creates each
record in turn through the normal create path. -/
def importSnapshot (records : List StoredEntity) (s : RecordStore) : RecordStore :=
  records.foldl (fun acc e => (createEntity acc e).1) s

/-! ## Theorems: DuplicateKey on create (C4) -/

/-- C4: for every store state and every entity whose (vehicle number,
entry time) pair already exists in the store, create fails with
DuplicateKey and leaves the store unchanged — no entity row or
sync-metadata row is added or overwritten. -/
theorem create_duplicate_key (s : RecordStore) (e : StoredEntity)
    (h : ∃ x ∈ s.entries, naturalKey x = naturalKey e) :
    createEntity s e = (s, some .DuplicateKey) := by
  have hk : hasKey s (naturalKey e) = true := by
    rcases h with ⟨x, hx, he⟩
    unfold hasKey
    rw [List.any_eq_true]
    exact ⟨x, hx, by simp [he]⟩
  unfold createEntity
  rw [hk]
  simp

/-- Witness for C4: creating a record whose natural key is already in a
concrete one-entity store fails with DuplicateKey and returns the store
unchanged. -/
theorem create_duplicate_key_witness :
    createEntity
      { entries := [{ vehicleNumber := "TEST123", entryTime := 0, exitTime := none,
                      status := "Parked", fee := 0, paymentStatus := "Unpaid" }],
        meta := [(("TEST123", 0), { syncStatus := .pending, isDirty := true })] }
      { vehicleNumber := "TEST123", entryTime := 0, exitTime := none,
        status := "Parked", fee := 225, paymentStatus := "Paid" } =
    ({ entries := [{ vehicleNumber := "TEST123", entryTime := 0, exitTime := none,
                     status := "Parked", fee := 0, paymentStatus := "Unpaid" }],
       meta := [(("TEST123", 0), { syncStatus := .pending, isDirty := true })] },
     some .DuplicateKey) :=
  create_duplicate_key _ _
    ⟨{ vehicleNumber := "TEST123", entryTime := 0, exitTime := none,
       status := "Parked", fee := 0, paymentStatus := "Unpaid" },
     by decide, by decide⟩

/-! ## Theorems: export/import round-trip (C8) -/

/-- Helper: importing a batch of records whose natural keys are distinct
and absent from the target store appends exactly those records. -/
theorem importSnapshot_append (records : List StoredEntity) :
    ∀ s : RecordStore,
    (records.map naturalKey).Nodup →
    (∀ k ∈ records.map naturalKey, hasKey s k = false) →
    (importSnapshot records s).entries = s.entries ++ records := by
  induction records with
  | nil => intro s _ _; simp [importSnapshot]
  | cons hd tl ih =>
    intro s hnd hfree
    have hhd : hasKey s (naturalKey hd) = false :=
      hfree (naturalKey hd) (by simp)
    have hstep : (createEntity s hd).1 =
        { entries := s.entries ++ [hd],
          meta := s.meta ++ [(naturalKey hd, { syncStatus := .pending, isDirty := true })] } := by
      unfold createEntity
      rw [hhd]
      simp
    have hnd2 : (tl.map naturalKey).Nodup := (List.nodup_cons.mp (by simpa using hnd)).2
    have hhdnotin : naturalKey hd ∉ tl.map naturalKey :=
      (List.nodup_cons.mp (by simpa using hnd)).1
    have hfree2 : ∀ k ∈ tl.map naturalKey, hasKey (createEntity s hd).1 k = false := by
      intro k hk
      rw [hstep]
      unfold hasKey at hfree ⊢
      simp only [List.any_append, Bool.or_eq_false_iff]
      constructor
      · exact hfree k (List.mem_cons_of_mem _ hk)
      · simp only [List.any_cons, List.any_nil, Bool.or_false, decide_eq_false_iff_not]
        intro he
        exact hhdnotin (he ▸ hk)
    unfold importSnapshot at ih ⊢
    rw [List.foldl_cons, ih (createEntity s hd).1 hnd2 hfree2, hstep]
    simp

/-- C8: for every store state whose natural keys are distinct (the
schema-enforced store invariant), export_snapshot followed by
import_snapshot of the exported data into a fresh empty store yields an
entity set field-equal to the original, including each fee and status. -/
theorem export_import_round_trip (s : RecordStore)
    (hinv : (s.entries.map naturalKey).Nodup) :
    (importSnapshot (exportSnapshot s) emptyStore).entries = s.entries := by
  have h := importSnapshot_append s.entries emptyStore hinv
    (fun k _ => by simp [hasKey, emptyStore])
  simpa [exportSnapshot, emptyStore] using h

/-- Witness for C8: the round trip on a concrete two-entity store (one
Parked and unpaid, one Exited and paid, distinct natural keys). -/
theorem export_import_round_trip_witness :
    (importSnapshot
      (exportSnapshot
        { entries := [
            { vehicleNumber := "TEST001", entryTime := 0, exitTime := none,
              status := "Parked", fee := 225, paymentStatus := "Unpaid" },
            { vehicleNumber := "TEST002", entryTime := 5, exitTime := some 7,
              status := "Exited", fee := 100, paymentStatus := "Paid" }],
          meta := [] })
      emptyStore).entries = [
        { vehicleNumber := "TEST001", entryTime := 0, exitTime := none,
          status := "Parked", fee := 225, paymentStatus := "Unpaid" },
        { vehicleNumber := "TEST002", entryTime := 5, exitTime := some 7,
          status := "Exited", fee := 100, paymentStatus := "Paid" }] :=
  export_import_round_trip
    { entries := [
        { vehicleNumber := "TEST001", entryTime := 0, exitTime := none,
          status := "Parked", fee := 225, paymentStatus := "Unpaid" },
        { vehicleNumber := "TEST002", entryTime := 5, exitTime := some 7,
          status := "Exited", fee := 100, paymentStatus := "Paid" }],
      meta := [] }
    (by decide)

/-! ## Fee calculation (from models/entry.py `calculate_fee`, replicated
in migration/data_migration_plan.py `_calculate_fee_for_validation`) -/

/-- One second in microseconds. -/
def usPerSecond : Int := 1000000

/-- One day in microseconds. -/
def usPerDay : Int := 86400000000

/-- Python timedelta `.days`: the duration in microseconds floor-divided
by a day (Lean `Int` division is Euclidean, which agrees with Python
floor division for this positive divisor). -/
def timedeltaDays (d : Int) : Int := d / usPerDay

/-- Python timedelta `.seconds`: the whole seconds of the sub-day
remainder, excluding the microsecond fraction. -/
def timedeltaSeconds (d : Int) : Int := (d % usPerDay) / usPerSecond

/-- The rates table of config.py, as recorded in the migration script:
daily rate per vehicle type. -/
def RATES : List (String × Int) :=
  [("Trailer", 225), ("6 Wheeler", 150), ("4 Wheeler", 100), ("2 Wheeler", 50)]

/-- Python `rates.get(vehicle_type, 100)`: the configured daily rate with
fallback 100 for unknown vehicle types. -/
def rateFor (vehicleType : String) : Int :=
  ((RATES.find? (fun p => p.fst == vehicleType)).map Prod.snd).getD 100

/-- The charged-days rule of calculate_fee:
`days = (exit_dt - entry_dt).days + (1 if (exit_dt - entry_dt).seconds > 0 else 0)`
over a duration `d` in microseconds. -/
def chargedDaysOf (d : Int) : Int :=
  timedeltaDays d + (if 0 < timedeltaSeconds d then 1 else 0)

/-- Embedding of ParkingEntry.calculate_fee for an entry whose exit time
is set: `days * RATES.get(self.vehicle_type, 100)`. Timestamps are in
microseconds. -/
def calculateFee (entryTime exitTime : Int) (vehicleType : String) : Int :=
  chargedDaysOf (exitTime - entryTime) * rateFor vehicleType

/-! ## Theorems: fee algorithm (C9) -/

/-- C9: for every parking entry with a set exit time, calculate_fee
returns d * r where d is the timedelta day count plus one when the
sub-day whole-second remainder is positive, and r is the configured daily
rate with fallback 100; on whole-second durations this day count is the
ceiling of the duration in days; exactly 24 hours yields 1 day, 24 hours
plus 1 second yields 2 days, and a zero duration yields 0 days and fee 0. -/
theorem calculate_fee_spec :
    (∀ (entryTime exitTime : Int) (vehicleType : String),
       calculateFee entryTime exitTime vehicleType =
         (timedeltaDays (exitTime - entryTime) +
            (if 0 < timedeltaSeconds (exitTime - entryTime) then 1 else 0)) *
           rateFor vehicleType) ∧
    (∀ d : Int, d % usPerSecond = 0 →
       chargedDaysOf d = (d + (usPerDay - 1)) / usPerDay) ∧
    chargedDaysOf usPerDay = 1 ∧
    chargedDaysOf (usPerDay + usPerSecond) = 2 ∧
    chargedDaysOf 0 = 0 ∧
    calculateFee 0 usPerDay "Trailer" = 225 ∧
    calculateFee 0 (usPerDay + usPerSecond) "Trailer" = 450 ∧
    calculateFee 0 0 "Trailer" = 0 ∧
    rateFor "Unknown Type" = 100 := by
  refine ⟨fun _ _ _ => rfl, ?_, by decide, by decide, by decide,
         by decide, by decide, by decide, by decide⟩
  intro d hsec
  simp only [chargedDaysOf, timedeltaDays, timedeltaSeconds, usPerDay, usPerSecond] at hsec ⊢
  split_ifs with h
  · omega
  · omega

/-- Witness for C9: the ceiling characterisation applied to the concrete
whole-second duration of one day. -/
theorem calculate_fee_spec_witness :
    chargedDaysOf usPerDay = (usPerDay + (usPerDay - 1)) / usPerDay :=
  calculate_fee_spec.2.1 usPerDay (by decide)

/-! ## JSON validator and transformer
(from migration/data_migration_plan.py) -/

/-- The exit-time field of a JSON entry: either the N-A sentinel or a
parseable timestamp. -/
inductive ExitField
  | na
  | time (t : Int)
deriving DecidableEq, Repr

/-- A JSON entry as validated by JsonDataValidator, with its timestamps
already parsed (the claims at issue concern entries whose timestamps
parse). -/
structure JsonEntry where
  serial : Int
  transportName : String
  vehicleType : String
  vehicleNumber : String
  entryTime : Int
  exitTime : ExitField
  status : String
  parkingFee : Int
  paymentStatus : String
deriving DecidableEq, Repr

/-- Stripping of leading and trailing whitespace, as Python str.strip. -/
def trimString (s : String) : String :=
  String.mk (((s.data.dropWhile Char.isWhitespace).reverse.dropWhile Char.isWhitespace).reverse)

/-- Uppercasing of a character, as Python str.upper acts on ASCII. -/
def upperChar (c : Char) : Char :=
  if 97 ≤ c.toNat ∧ c.toNat ≤ 122 then Char.ofNat (c.toNat - 32) else c

/-- Uppercasing of a string, as Python str.upper acts on ASCII input. -/
def upperString (s : String) : String := String.mk (s.data.map upperChar)

/-- The vehicle types accepted by the validator and by the schema CHECK
constraint. -/
def validVehicleTypes : List String :=
  ["Trailer", "6 Wheeler", "4 Wheeler", "2 Wheeler"]

/-- Embedding of JsonDataValidator._validate_entry_content, errors only
(the Parked-with-exit-time and Parked-with-fee business rules produce
warnings, not errors, and do not block migration). An exit time is
compared against the entry time only when it is not the N-A sentinel. -/
def entryContentErrors (e : JsonEntry) : List String :=
  (if e.vehicleType ∈ validVehicleTypes then [] else ["Invalid vehicle type"]) ++
  (if trimString e.vehicleNumber = "" then ["Empty vehicle number"] else []) ++
  (match e.exitTime with
   | .na => []
   | .time t => if t < e.entryTime then ["Exit time before entry time"] else []) ++
  (if e.parkingFee < 0 then ["Negative parking fee"] else []) ++
  (if e.status = "Parked" ∨ e.status = "Exited" then [] else ["Invalid status"])

/-- Embedding of DataTransformer.transform_entry, restricted to the
fields the claims are about: the vehicle number is uppercased and
stripped, an N-A exit time becomes null, status, fee and payment status
are carried over. -/
def transformEntry (e : JsonEntry) : StoredEntity :=
  { vehicleNumber := trimString (upperString e.vehicleNumber)
    entryTime := e.entryTime
    exitTime := match e.exitTime with | .na => none | .time t => some t
    status := e.status
    fee := e.parkingFee
    paymentStatus := e.paymentStatus }

/-! ## Theorems: the Exited-record invariant (C6) -/

/-- An Exited entry carrying the N-A exit-time sentinel: every validator
check passes on it. -/
def exitedWithoutExitTime : JsonEntry :=
  { serial := 1, transportName := "Test Transport", vehicleType := "Trailer",
    vehicleNumber := "TEST123", entryTime := 0, exitTime := .na,
    status := "Exited", parkingFee := 225, paymentStatus := "Paid" }

/-- Counterexample to C6 as stated: an entry with status Exited and no
exit time passes content validation with no errors, is accepted by the
migration insert path, and therefore reaches the store as an Exited
record whose exit time is null — the claimed invariant that an Exited
record always carries a non-null exit time is not enforced by the code. -/
theorem exited_record_without_exit_time :
    entryContentErrors exitedWithoutExitTime = [] ∧
    (createEntity emptyStore (transformEntry exitedWithoutExitTime)).2 = none ∧
    ∃ e ∈ (createEntity emptyStore (transformEntry exitedWithoutExitTime)).1.entries,
      e.status = "Exited" ∧ e.exitTime = none := by
  refine ⟨by decide, by decide, transformEntry exitedWithoutExitTime, by decide, by decide, by decide⟩

/-- C6 as amended: the code guarantees only the second half of the
claimed invariant — every entry accepted by validation whose exit time is
set (not the N-A sentinel) has exit time greater than or equal to its
entry time; an Exited record is not required to carry a non-null exit
time. -/
theorem validated_exit_not_before_entry (e : JsonEntry)
    (h : entryContentErrors e = []) (t : Int) (ht : e.exitTime = .time t) :
    e.entryTime ≤ t := by
  by_contra hgt
  push_neg at hgt
  have hmem : "Exit time before entry time" ∈ entryContentErrors e := by
    simp only [entryContentErrors, ht]
    simp [hgt]
  rw [h] at hmem
  exact absurd hmem (List.not_mem_nil _)

/-- A valid Exited entry whose exit time is set and after its entry
time. -/
def exitedWithExitTime : JsonEntry :=
  { serial := 2, transportName := "Test Transport", vehicleType := "Trailer",
    vehicleNumber := "TEST124", entryTime := 3, exitTime := .time 7,
    status := "Exited", parkingFee := 225, paymentStatus := "Paid" }

/-- Witness for the amended C6: the theorem applied to a concrete
validated entry with a set exit time. -/
theorem validated_exit_not_before_entry_witness :
    JsonEntry.entryTime exitedWithExitTime ≤ 7 :=
  validated_exit_not_before_entry exitedWithExitTime (by decide) 7 rfl

/-! ## Entry construction (from models/entry.py `ParkingEntry.__init__`) -/

/-- The input dict of ParkingEntry.__init__: every field may be absent,
in which case the documented default applies. -/
structure EntryData where
  serial : Option Int := none
  transportName : Option String := none
  vehicleType : Option String := none
  vehicleNumber : Option String := none
  driverName : Option String := none
  driverPhone : Option String := none
  notes : Option String := none
  entryTime : Option String := none
  status : Option String := none
  parkingFee : Option Int := none
  paymentStatus : Option String := none
  paymentType : Option String := none
  exitTime : Option String := none
  createdBy : Option String := none
  lastModified : Option String := none
deriving DecidableEq, Repr

/-- The constructed ParkingEntry object. -/
structure ParkingEntryModel where
  serial : Int
  transportName : String
  vehicleType : String
  vehicleNumber : String
  driverName : String
  driverPhone : String
  notes : String
  entryTime : String
  status : String
  parkingFee : Int
  paymentStatus : String
  paymentType : String
  exitTime : String
  createdBy : String
  lastModified : String
deriving DecidableEq, Repr

/-- Embedding of ParkingEntry.__init__: each field takes the given value
or its default, and the vehicle number is uppercased. `now` stands for
the current ISO timestamp used as the default of the entry-time and
last-modified fields. -/
def mkParkingEntry (now : String) (data : EntryData) : ParkingEntryModel :=
  { serial := data.serial.getD 0
    transportName := data.transportName.getD ""
    vehicleType := data.vehicleType.getD ""
    vehicleNumber := upperString (data.vehicleNumber.getD "")
    driverName := data.driverName.getD "N/A"
    driverPhone := data.driverPhone.getD "N/A"
    notes := data.notes.getD "N/A"
    entryTime := data.entryTime.getD now
    status := data.status.getD "Parked"
    parkingFee := data.parkingFee.getD 0
    paymentStatus := data.paymentStatus.getD "Unpaid"
    paymentType := data.paymentType.getD "N/A"
    exitTime := data.exitTime.getD "N/A"
    createdBy := data.createdBy.getD "System"
    lastModified := data.lastModified.getD now }

/-! ## Theorems: vehicle-number normalisation (C10) -/

/-- C10: for every input, the stored vehicle number is the given vehicle
number uppercased, so any two inputs whose vehicle numbers agree up to
case produce the same stored vehicle number — natural-key matching is
case-insensitive with respect to the original input; in particular the
input "mh12ab1234" is stored as "MH12AB1234". -/
theorem vehicle_number_normalized :
    (∀ (now : String) (data : EntryData),
       (mkParkingEntry now data).vehicleNumber =
         upperString (data.vehicleNumber.getD "")) ∧
    (∀ (now1 now2 : String) (d1 d2 : EntryData),
       upperString (d1.vehicleNumber.getD "") = upperString (d2.vehicleNumber.getD "") →
       (mkParkingEntry now1 d1).vehicleNumber = (mkParkingEntry now2 d2).vehicleNumber) ∧
    (mkParkingEntry "2024-01-15T10:30:00"
       { vehicleNumber := some "mh12ab1234" }).vehicleNumber = "MH12AB1234" := by
  exact ⟨fun _ _ => rfl, fun _ _ _ _ h => h, by decide⟩

/-- Witness for C10: the case-insensitivity conjunct applied to two
concrete inputs differing only in the case of the vehicle number. -/
theorem vehicle_number_normalized_witness :
    (mkParkingEntry "t0" { vehicleNumber := some "mh12ab1234" }).vehicleNumber =
      (mkParkingEntry "t1" { vehicleNumber := some "MH12ab1234" }).vehicleNumber :=
  vehicle_number_normalized.2.1 "t0" "t1"
    { vehicleNumber := some "mh12ab1234" }
    { vehicleNumber := some "MH12ab1234" }
    (by decide)

end ParkingSync
